import Mathlib

/-!
Shallow embedding of the real-time sync subsystem of the
secure-messenger-desktop repository, and proofs about it.

The embedding covers:
* the SQLite store module (`electron/db.js`): `getChats`, `markChatAsRead`,
  `insertMessage`;
* the Redux slices (`chatsSlice.ts`, `messagesSlice.ts`,
  `connectionSlice.ts`): the reducers invoked by the WebSocket handler;
* the client connection manager (`src/services/websocket.ts`): its state,
  its timers and its event handlers, modelled as a step function on an
  explicit manager state driven by a list of events (single-threaded
  cooperative model: callbacks run one at a time).

Machine integers do not overflow in any of the modelled code paths
(timestamps and counters are plain JavaScript numbers used as integers),
so they are modelled as `Nat`.
-/

namespace SecureMessenger

/-! ### Store layer: electron/db.js -/

/-- A row of the `chats` table (`electron/db.js`, CREATE TABLE chats). -/
structure DbChat where
  id : String
  title : String
  lastMessageAt : Nat
  unreadCount : Nat
deriving Repr, DecidableEq

/-- A row of the `messages` table (`electron/db.js`, CREATE TABLE messages). -/
structure DbMessage where
  id : String
  chatId : String
  ts : Nat
  sender : String
  body : String
deriving Repr, DecidableEq

/-- The database: the two tables, each as a list of rows in insertion
(rowid) order. -/
structure Db where
  chats : List DbChat
  messages : List DbMessage
deriving Repr, DecidableEq

/-- The comparison used by `ORDER BY lastMessageAt DESC`: row `a` comes
before row `b` when `b.lastMessageAt ≤ a.lastMessageAt`. -/
def chatLe (a b : DbChat) : Prop := b.lastMessageAt ≤ a.lastMessageAt

instance : DecidableRel chatLe := fun a b => Nat.decLe b.lastMessageAt a.lastMessageAt

/-- The query clause `ORDER BY lastMessageAt DESC` over an unchanged table, modelled as a
deterministic stable sort: for a fixed table and a fixed query SQLite
returns one fixed order, and the partition property proved below holds for
any fixed total order of the rows. -/
def sortChats (l : List DbChat) : List DbChat := List.insertionSort chatLe l

/-- Result shape of `getChats` (`electron/db.js` lines 510-533). -/
structure GetChatsResult where
  chats : List DbChat
  total : Nat
  hasMore : Bool
deriving Repr, DecidableEq

/-- Function `getChats(offset, limit)` (`electron/db.js` lines 510-533):
`SELECT COUNT(*)`, then `SELECT ... ORDER BY lastMessageAt DESC LIMIT ?
OFFSET ?`, and `hasMore = offset + limit < total`. -/
def getChats (offset limit : Nat) (db : Db) : GetChatsResult :=
  let total := db.chats.length
  { chats := ((sortChats db.chats).drop offset).take limit
    total := total
    hasMore := decide (offset + limit < total) }

/-- Function `markChatAsRead(chatId)` (`electron/db.js` lines 626-633):
`UPDATE chats SET unreadCount = 0 WHERE id = ?`. -/
def markChatAsRead (chatId : String) (db : Db) : Db :=
  { db with chats := db.chats.map fun c =>
      if c.id = chatId then { c with unreadCount := 0 } else c }

/-- Outcome of a store command that may throw: the retained database state
together with the error, if any.  better-sqlite3 is synchronous; a thrown
statement leaves every previously executed statement committed, because
`insertMessage` wraps its two statements in no transaction. -/
structure RunResult where
  db : Db
  error : Option String
deriving Repr, DecidableEq

/-- Function `insertMessage(chatId, messageId, ts, sender, body, increment_unread)`
(`electron/db.js` lines 648-675).  Two separate prepared statements, no
enclosing transaction:

1. `INSERT INTO messages ...` — throws on a duplicate `messages.id`
   (PRIMARY KEY) or on a `chatId` that references no chat
   (`PRAGMA foreign_keys = ON`), in which case nothing is written;
2. `UPDATE chats SET lastMessageAt = ?[, unreadCount = unreadCount + 1]
   WHERE id = ?`.

`updateFails` is a failure oracle for the second statement: any
better-sqlite3 `run()` may throw (e.g. `SQLITE_BUSY`, `SQLITE_FULL`,
`SQLITE_IOERR`).  When it does, the already committed INSERT is not rolled
back; the catch block only logs and rethrows. -/
def insertMessage (chatId messageId : String) (ts : Nat) (sender body : String)
    (increment_unread : Bool) (updateFails : Bool) (db : Db) : RunResult :=
  if db.messages.any (fun m => m.id == messageId) then
    { db := db, error := some "UNIQUE constraint failed" }
  else if !(db.chats.any (fun c => c.id == chatId)) then
    { db := db, error := some "FOREIGN KEY constraint failed" }
  else
    let db1 : Db :=
      { db with messages := db.messages ++ [⟨messageId, chatId, ts, sender, body⟩] }
    if updateFails then
      { db := db1, error := some "database is locked" }
    else
      { db := { db1 with chats := db1.chats.map fun c =>
          if c.id = chatId then
            { c with lastMessageAt := ts
                     unreadCount :=
                       if increment_unread then c.unreadCount + 1 else c.unreadCount }
          else c }
        error := none }

/-! ### Redux slices -/

/-- A chat as held by `chatsSlice.ts`. -/
structure Chat where
  id : String
  title : String
  lastMessageAt : Nat
  unreadCount : Nat
deriving Repr, DecidableEq

/-- State of `chatsSlice.ts`. -/
structure ChatsState where
  items : List Chat
  total : Nat
  hasMore : Bool
  currentOffset : Nat
  loading : Bool
  error : Option String
deriving Repr, DecidableEq

/-- Immer-style in-place mutation of the first element satisfying `p`
(`state.items.find(...)` followed by field assignments): every element
before the first match, and every element after it, is untouched. -/
def updateFirst (p : α → Bool) (f : α → α) : List α → List α
  | [] => []
  | x :: xs => if p x then f x :: xs else x :: updateFirst p f xs

/-- Reducer `incrementChatUnread` of `chatsSlice` (part_000 lines 169-177):
find the chat with the given id; if present, `unreadCount += 1` and
`lastMessageAt = Date.now()` (the `now` argument).  The list is NOT
re-sorted (the source comment reads `Re-sort (would do this in real app
with database query)`). -/
def incrementChatUnread (now : Nat) (chatId : String) (s : ChatsState) : ChatsState :=
  { s with items :=
      (updateFirst (fun c => c.id == chatId)
        (fun c => { c with unreadCount := c.unreadCount + 1, lastMessageAt := now })
        s.items) }

/-- Reducer `markChatRead` of `chatsSlice` (part_000 lines 183-188). -/
def markChatRead (chatId : String) (s : ChatsState) : ChatsState :=
  { s with items :=
      (updateFirst (fun c => c.id == chatId)
        (fun c => { c with unreadCount := 0 })
        s.items) }

/-- A message as held by `messagesSlice.ts`. -/
structure Message where
  id : String
  chatId : String
  ts : Nat
  sender : String
  body : String
deriving Repr, DecidableEq

/-- State of `messagesSlice.ts`. -/
structure MessagesState where
  items : List Message
  selectedChatId : Option String
  total : Nat
  hasMore : Bool
  currentOffset : Nat
  loading : Bool
  error : Option String
deriving Repr, DecidableEq

/-- Reducer `addMessage` of `messagesSlice` (messagesSlice.ts lines 121-126):
append only when the message is for the currently selected chat. -/
def addMessage (msg : Message) (s : MessagesState) : MessagesState :=
  if s.selectedChatId = some msg.chatId then { s with items := s.items ++ [msg] } else s

/-! ### Client dispatch of NEW_MESSAGE events -/

/-- Payload of a `NEW_MESSAGE` wire event. -/
structure NewMessageData where
  chatId : String
  messageId : String
  ts : Nat
  sender : String
  body : String
deriving Repr, DecidableEq

/-- The client's local view: the two Redux slices a `NEW_MESSAGE` dispatch
touches. -/
structure ClientView where
  chats : ChatsState
  messages : MessagesState
deriving Repr, DecidableEq

/-- Method `WebSocketManager.handleNewMessage` (websocket.ts lines 196-216):
dispatch `incrementChatUnread(chatId)` to the chats slice, then
`addMessage(...)` to the messages slice.  `now` is the `Date.now()` read
inside the chats reducer. -/
def handleNewMessage (now : Nat) (d : NewMessageData) (st : ClientView) : ClientView :=
  { chats := incrementChatUnread now d.chatId st.chats
    messages := addMessage ⟨d.messageId, d.chatId, d.ts, d.sender, d.body⟩ st.messages }

/-- Apply a list of `NEW_MESSAGE` events in order; each carries the clock
value read while it is applied. -/
def applyNewMessages : List (Nat × NewMessageData) → ClientView → ClientView
  | [], st => st
  | (now, d) :: rest, st => applyNewMessages rest (handleNewMessage now d st)

/-- The unread counter of chat `x` as the UI reads it: the `unreadCount`
field of the first chat with id `x` in the chats slice, if any. -/
def unreadCount (st : ClientView) (x : String) : Option Nat :=
  (st.chats.items.find? (fun c => c.id == x)).map (fun c => c.unreadCount)

/-! ### Connection manager: src/services/websocket.ts

The manager, its three timers and the Redux connection slice, modelled as
one explicit state; transport callbacks and timer callbacks are events
consumed one at a time by a step function (single-threaded cooperative
model).  A timer-fire event is a no-op unless the corresponding timer is
pending, so every event list is a valid schedule. -/

/-- The `WebSocket.readyState` values. -/
inductive ReadyState where
  | CONNECTING
  | OPEN
  | CLOSING
  | CLOSED
deriving Repr, DecidableEq

/-- Status values of `connectionSlice.ts`. -/
inductive ConnStatus where
  | connected
  | connecting
  | disconnected
  | error
deriving Repr, DecidableEq

/-- State of `connectionSlice.ts`. -/
structure ConnState where
  status : ConnStatus
  lastHeartbeat : Nat
  reconnectAttempt : Nat
  error : Option String
deriving Repr, DecidableEq

/-- The `connectionSlice` initial state. -/
def initConn : ConnState :=
  { status := .disconnected, lastHeartbeat := 0, reconnectAttempt := 0, error := none }

/-- Reducer `setConnecting` (connectionSlice.ts lines 48-51). -/
def setConnecting (s : ConnState) : ConnState :=
  { s with status := .connecting, error := none }

/-- Reducer `setConnected` (connectionSlice.ts lines 57-62); `now` is
`Date.now()`. -/
def setConnected (now : Nat) (s : ConnState) : ConnState :=
  { s with status := .connected, reconnectAttempt := 0, error := none, lastHeartbeat := now }

/-- Reducer `setDisconnected` (connectionSlice.ts lines 68-71). -/
def setDisconnected (s : ConnState) : ConnState :=
  { s with status := .disconnected, reconnectAttempt := s.reconnectAttempt + 1 }

/-- Reducer `setConnectionError` (connectionSlice.ts lines 77-80). -/
def setConnectionError (msg : String) (s : ConnState) : ConnState :=
  { s with status := .error, error := some msg }

/-- Reducer `updateHeartbeat` (connectionSlice.ts lines 87-89). -/
def updateHeartbeat (now : Nat) (s : ConnState) : ConnState :=
  { s with lastHeartbeat := now }

/-- The whole client connection subsystem:

* `ws`, `reconnectAttempt`: the manager's private fields; `ws` holds the
  readyState of the current socket, `none` for `null`;
* `reconnectTimeout`: the pending reconnect-delay timer and its delay in
  milliseconds, `none` when no such timer is pending;
* `heartbeatInterval` / `heartbeatTimeout`: whether the 10 s ping interval
  is installed and whether a 5 s pong timeout is pending;
* `conn`: the Redux connection slice;
* `opens`: how many times `new WebSocket(WS_URL)` has been executed;
* `pings`: how many PING frames have been sent;
* `pendingOnclose`: sockets closed by `ws.close()` whose `onclose`
  callback has not yet been delivered (the handler stays attached even
  after `this.ws` is nulled). -/
structure Mgr where
  ws : Option ReadyState
  reconnectAttempt : Nat
  reconnectTimeout : Option Nat
  heartbeatInterval : Bool
  heartbeatTimeout : Bool
  conn : ConnState
  opens : Nat
  pings : Nat
  pendingOnclose : Nat
deriving Repr, DecidableEq

/-- Constant `maxReconnectAttempts` (websocket.ts line 50). -/
def maxReconnectAttempts : Nat := 5

/-- The manager at construction, with the slice at its initial state. -/
def initMgr : Mgr :=
  { ws := none, reconnectAttempt := 0, reconnectTimeout := none
    heartbeatInterval := false, heartbeatTimeout := false
    conn := initConn, opens := 0, pings := 0, pendingOnclose := 0 }

/-- Method `connect()` (websocket.ts lines 60-100): dispatch `setConnecting`,
construct a new WebSocket (readyState CONNECTING) and install its
handlers.  The fixed `ws://localhost:9000` URL makes the constructor
throw-free, so the catch branch is dead. -/
def connect (m : Mgr) : Mgr :=
  { m with conn := setConnecting m.conn, ws := some .CONNECTING, opens := m.opens + 1 }

/-- Method `stopHeartbeat()` (websocket.ts lines 261-268): clear the ping
interval and the pong timeout. -/
def stopHeartbeat (m : Mgr) : Mgr :=
  { m with heartbeatInterval := false, heartbeatTimeout := false }

/-- Method `disconnect()` (websocket.ts lines 107-116): `stopHeartbeat()`, clear
the reconnect timer, `ws.close()` and null the field.  Closing a not yet
closed socket queues its `onclose` callback; `close()` on an already
closed socket does nothing. -/
def disconnect (m : Mgr) : Mgr :=
  let m1 := { stopHeartbeat m with reconnectTimeout := none }
  match m1.ws with
  | some rs =>
      if rs = .CLOSED then { m1 with ws := none }
      else { m1 with ws := none, pendingOnclose := m1.pendingOnclose + 1 }
  | none => m1

/-- Method `scheduleReconnect()` (websocket.ts lines 130-150):
`delay = min(2^attempt * 1000, 30000)`; when `reconnectAttempt <
maxReconnectAttempts` install a timer with that delay, otherwise dispatch
a persistent error and install nothing. -/
def scheduleReconnect (m : Mgr) : Mgr :=
  let baseDelay := 2 ^ m.reconnectAttempt
  let delay := min (baseDelay * 1000) 30000
  if m.reconnectAttempt < maxReconnectAttempts then
    { m with reconnectTimeout := some delay }
  else
    { m with conn :=
        setConnectionError "Max reconnection attempts reached. Please restart app." m.conn }

/-- The `onclose` handler body (websocket.ts lines 81-86): dispatch
`setDisconnected`, `stopHeartbeat()`, `scheduleReconnect()`. -/
def oncloseBody (m : Mgr) : Mgr :=
  scheduleReconnect (stopHeartbeat { m with conn := setDisconnected m.conn })

/-- The events the manager reacts to: the two public calls, the transport
callbacks of the socket, and the three timer callbacks. -/
inductive Ev where
  | callConnect
  | callDisconnect
  | wsOpen (now : Nat)
  | wsClose
  | wsError (msg : String)
  | recvPong (now : Nat)
  | heartbeatTick
  | heartbeatTimeoutFires
  | reconnectTimerFires
deriving Repr, DecidableEq

/-- One callback execution.  Timer events are no-ops when their timer is
not pending; socket events are no-ops when no socket can deliver them. -/
def step (e : Ev) (m : Mgr) : Mgr :=
  match e with
  | .callConnect => connect m
  | .callDisconnect => disconnect m
  | .wsOpen now =>
      match m.ws with
      | some .CONNECTING =>
          { m with ws := some .OPEN
                   conn := setConnected now m.conn
                   reconnectAttempt := 0
                   heartbeatInterval := true }
      | _ => m
  | .wsClose =>
      if m.pendingOnclose > 0 then
        oncloseBody { m with pendingOnclose := m.pendingOnclose - 1 }
      else
        match m.ws with
        | some .CONNECTING => oncloseBody { m with ws := some .CLOSED }
        | some .OPEN => oncloseBody { m with ws := some .CLOSED }
        | _ => m
  | .wsError msg =>
      match m.ws with
      | some .CONNECTING => { m with conn := setConnectionError msg m.conn }
      | some .OPEN => { m with conn := setConnectionError msg m.conn }
      | _ => m
  | .recvPong now =>
      match m.ws with
      | some .OPEN => { m with heartbeatTimeout := false, conn := updateHeartbeat now m.conn }
      | _ => m
  | .heartbeatTick =>
      if m.heartbeatInterval then
        match m.ws with
        | some .OPEN => { m with pings := m.pings + 1, heartbeatTimeout := true }
        | _ => m
      else m
  | .heartbeatTimeoutFires =>
      if m.heartbeatTimeout then
        connect (disconnect { m with heartbeatTimeout := false })
      else m
  | .reconnectTimerFires =>
      match m.reconnectTimeout with
      | some _ =>
          connect { m with reconnectTimeout := none
                           reconnectAttempt := m.reconnectAttempt + 1 }
      | none => m

/-- Run a schedule of events in order. -/
def run (evs : List Ev) (m : Mgr) : Mgr :=
  evs.foldl (fun s e => step e s) m

/-- Method `getStatus()` (websocket.ts lines 291-296). -/
def getStatus (m : Mgr) : String :=
  match m.ws with
  | none => "disconnected"
  | some .CONNECTING => "connecting"
  | some .OPEN => "connected"
  | some _ => "disconnected"

/-- The failure schedule: `connect()`, then five rounds of transport close
followed by the backoff timer firing, then a sixth close.  After it the
manager has exhausted `maxReconnectAttempts`. -/
def failTrace : List Ev :=
  [.callConnect, .wsClose, .reconnectTimerFires, .wsClose, .reconnectTimerFires,
   .wsClose, .reconnectTimerFires, .wsClose, .reconnectTimerFires, .wsClose,
   .reconnectTimerFires, .wsClose]

/-- The manager after five consecutive failed reconnect attempts. -/
def givenUpState : Mgr := run failTrace initMgr

/-- A manager state with no live socket, no undelivered close callback and
no pending timer: no callback of this manager can run spontaneously. -/
def Dormant (m : Mgr) : Prop :=
  m.reconnectTimeout = none ∧ m.heartbeatInterval = false ∧ m.heartbeatTimeout = false
  ∧ m.pendingOnclose = 0 ∧ (m.ws = none ∨ m.ws = some ReadyState.CLOSED)

instance (m : Mgr) : Decidable (Dormant m) := by
  unfold Dormant; infer_instance

theorem step_dormant (e : Ev) (m : Mgr) (hD : Dormant m) (he : e ≠ Ev.callConnect) :
    (step e m).opens = m.opens ∧ Dormant (step e m) := by
  obtain ⟨h1, h2, h3, h4, h5⟩ := hD
  cases e with
  | callConnect => exact absurd rfl he
  | callDisconnect =>
      rcases h5 with h5 | h5 <;>
        · have hs : step Ev.callDisconnect m
              = { m with heartbeatInterval := false, heartbeatTimeout := false,
                         reconnectTimeout := none, ws := none } := by
            simp [step, disconnect, stopHeartbeat, h5]
          rw [hs]
          exact ⟨rfl, rfl, rfl, rfl, h4, Or.inl rfl⟩
  | wsOpen now =>
      have hs : step (Ev.wsOpen now) m = m := by
        rcases h5 with h5 | h5 <;> simp [step, h5]
      rw [hs]
      exact ⟨rfl, h1, h2, h3, h4, h5⟩
  | wsClose =>
      have hs : step Ev.wsClose m = m := by
        rcases h5 with h5 | h5 <;> simp [step, h4, h5]
      rw [hs]
      exact ⟨rfl, h1, h2, h3, h4, h5⟩
  | wsError msg =>
      have hs : step (Ev.wsError msg) m = m := by
        rcases h5 with h5 | h5 <;> simp [step, h5]
      rw [hs]
      exact ⟨rfl, h1, h2, h3, h4, h5⟩
  | recvPong now =>
      have hs : step (Ev.recvPong now) m = m := by
        rcases h5 with h5 | h5 <;> simp [step, h5]
      rw [hs]
      exact ⟨rfl, h1, h2, h3, h4, h5⟩
  | heartbeatTick =>
      have hs : step Ev.heartbeatTick m = m := by simp [step, h2]
      rw [hs]
      exact ⟨rfl, h1, h2, h3, h4, h5⟩
  | heartbeatTimeoutFires =>
      have hs : step Ev.heartbeatTimeoutFires m = m := by simp [step, h3]
      rw [hs]
      exact ⟨rfl, h1, h2, h3, h4, h5⟩
  | reconnectTimerFires =>
      have hs : step Ev.reconnectTimerFires m = m := by simp [step, h1]
      rw [hs]
      exact ⟨rfl, h1, h2, h3, h4, h5⟩

theorem run_dormant (evs : List Ev) (m : Mgr) (hD : Dormant m)
    (h : Ev.callConnect ∉ evs) :
    (run evs m).opens = m.opens ∧ Dormant (run evs m) := by
  induction evs generalizing m with
  | nil => exact ⟨rfl, hD⟩
  | cons e rest ih =>
      have he : e ≠ Ev.callConnect := by
        intro hh; exact h (hh ▸ List.mem_cons_self e rest)
      have hrest : Ev.callConnect ∉ rest := fun hh => h (List.mem_cons_of_mem e hh)
      obtain ⟨ho, hd⟩ := step_dormant e m hD he
      obtain ⟨ho2, hd2⟩ := ih (step e m) hd hrest
      have hr : run (e :: rest) m = run rest (step e m) := rfl
      rw [hr]
      exact ⟨ho2.trans ho, hd2⟩

/-- C1 (code_bug): on the schedule `connect(); onopen; disconnect();` the
call to `disconnect()` does cancel every pending timer — but the
`onclose` callback of the socket it just closed then runs
`scheduleReconnect()`, which installs a 1000 ms reconnect-delay timer;
when that timer fires, `connect()` runs and a new transport is opened,
with no `connect()` issued by the caller after the teardown.  This
contradicts the claim that once `disconnect()` has completed no
reconnect-delay callback runs until a new `connect()`. -/
theorem disconnect_close_event_schedules_reconnect :
    (run [.callConnect, .wsOpen 0, .callDisconnect] initMgr).reconnectTimeout = none
  ∧ (run [.callConnect, .wsOpen 0, .callDisconnect] initMgr).heartbeatInterval = false
  ∧ (run [.callConnect, .wsOpen 0, .callDisconnect] initMgr).heartbeatTimeout = false
  ∧ (run [.callConnect, .wsOpen 0, .callDisconnect, .wsClose] initMgr).reconnectTimeout
      = some 1000
  ∧ (run [.callConnect, .wsOpen 0, .callDisconnect, .wsClose, .reconnectTimerFires]
        initMgr).opens
      = (run [.callConnect, .wsOpen 0, .callDisconnect] initMgr).opens + 1 := by
  decide

/-- C2 counterexample: with the manager `Connected` (after `connect()` and
`onopen`), calling `connect()` again is not a no-op — the status changes
back to `connecting` and a new transport is opened. -/
theorem connect_when_connected_changes_state :
    (run [.callConnect, .wsOpen 0] initMgr).conn.status = ConnStatus.connected
  ∧ (step .callConnect (run [.callConnect, .wsOpen 0] initMgr)).conn.status
      = ConnStatus.connecting
  ∧ (step .callConnect (run [.callConnect, .wsOpen 0] initMgr)).opens
      = (run [.callConnect, .wsOpen 0] initMgr).opens + 1 := by
  decide

/-- C2 amended: `connect()` is unguarded.  From every manager state —
including `Connecting` and `Connected` — it dispatches `setConnecting`
(status becomes `connecting`, the error is cleared) and constructs a new
WebSocket, replacing `this.ws`. -/
theorem connect_always_transitions_and_opens (m : Mgr) :
    (step .callConnect m).conn.status = ConnStatus.connecting
  ∧ (step .callConnect m).conn.error = none
  ∧ (step .callConnect m).opens = m.opens + 1
  ∧ (step .callConnect m).ws = some ReadyState.CONNECTING :=
  ⟨rfl, rfl, rfl, rfl⟩

/-- C4: when `reconnectAttempt < 5`, `scheduleReconnect()` installs a
timer whose delay is exactly `min(2^attempt, 30)` seconds (in
milliseconds); when `reconnectAttempt ≥ 5` it installs nothing (the
pending-timer field is untouched) and surfaces the terminal error.  The
delay is a pure function of the attempt counter: no jitter. -/
theorem reconnect_delay_exact (m : Mgr) :
    (m.reconnectAttempt < 5 →
      (scheduleReconnect m).reconnectTimeout
        = some (min (2 ^ m.reconnectAttempt) 30 * 1000))
  ∧ (5 ≤ m.reconnectAttempt →
      (scheduleReconnect m).reconnectTimeout = m.reconnectTimeout
      ∧ (scheduleReconnect m).conn.status = ConnStatus.error) := by
  constructor
  · intro h
    have hle : 2 ^ m.reconnectAttempt ≤ 16 := by
      calc 2 ^ m.reconnectAttempt ≤ 2 ^ 4 := Nat.pow_le_pow_right (by norm_num) (by omega)
        _ = 16 := by norm_num
    have h1 : (scheduleReconnect m).reconnectTimeout
        = some (min (2 ^ m.reconnectAttempt * 1000) 30000) := by
      simp [scheduleReconnect, maxReconnectAttempts, h]
    rw [h1, min_eq_left (by omega), min_eq_left (show 2 ^ m.reconnectAttempt ≤ 30 by omega)]
  · intro h
    constructor <;>
      simp [scheduleReconnect, maxReconnectAttempts, Nat.not_lt.mpr h, setConnectionError]

/-- C4 witness: at attempt 0 the installed delay is 1000 ms. -/
theorem reconnect_delay_exact_witness :
    (scheduleReconnect initMgr).reconnectTimeout = some 1000 := by
  have h := (reconnect_delay_exact initMgr).1 (by decide)
  simpa [initMgr, initConn] using h

/-- C5 counterexample: from the exhausted state an explicit `connect()`
does not reset the attempt counter — it stays at 5 (it is reset only by a
successful `onopen`). -/
theorem givenUp_connect_keeps_attempt_counter :
    (step .callConnect givenUpState).reconnectAttempt = 5
  ∧ ¬ (step .callConnect givenUpState).reconnectAttempt = 0 := by
  decide

/-- C5 amended: after 5 consecutive failed reconnect attempts the manager
is in a terminal error state (persistent message, no pending timer,
attempt counter 5); under every schedule that contains no explicit
`connect()` call, no further transport is opened; an explicit `connect()`
exits the state (status back to `connecting`, a new transport opened) but
leaves the attempt counter at its exhausted value — the counter is reset
only when a connection attempt succeeds. -/
theorem givenUp_terminal_until_connect (evs : List Ev) (h : Ev.callConnect ∉ evs) :
    givenUpState.conn.status = ConnStatus.error
  ∧ givenUpState.conn.error = some "Max reconnection attempts reached. Please restart app."
  ∧ givenUpState.reconnectTimeout = none
  ∧ givenUpState.reconnectAttempt = 5
  ∧ (run evs givenUpState).opens = givenUpState.opens
  ∧ (step .callConnect givenUpState).conn.status = ConnStatus.connecting
  ∧ (step .callConnect givenUpState).opens = givenUpState.opens + 1
  ∧ (step .callConnect givenUpState).reconnectAttempt = givenUpState.reconnectAttempt := by
  have hD : Dormant givenUpState := by decide
  exact ⟨by decide, by decide, by decide, by decide,
    (run_dormant evs givenUpState hD h).1, by decide, by decide, by decide⟩

/-- C5 witness: a concrete connect-free schedule from the exhausted state
opens no transport. -/
theorem givenUp_terminal_until_connect_witness :
    (run [Ev.wsClose, Ev.heartbeatTick, Ev.reconnectTimerFires] givenUpState).opens
      = givenUpState.opens :=
  (givenUp_terminal_until_connect [Ev.wsClose, Ev.heartbeatTick, Ev.reconnectTimerFires]
    (by decide)).2.2.2.2.1

/-- C7: with a pong timeout pending on an open, connected socket, the
timeout callback runs `disconnect()` then `connect()` in the same
callback: the status is `connecting` and a new transport has been opened
in that single step, and no reconnect-delay timer is pending — the
backoff path is bypassed. -/
theorem heartbeat_timeout_reconnects_immediately (m : Mgr)
    (_hconn : m.conn.status = ConnStatus.connected)
    (hws : m.ws = some ReadyState.OPEN)
    (hto : m.heartbeatTimeout = true) :
    (step .heartbeatTimeoutFires m).conn.status = ConnStatus.connecting
  ∧ (step .heartbeatTimeoutFires m).opens = m.opens + 1
  ∧ (step .heartbeatTimeoutFires m).ws = some ReadyState.CONNECTING
  ∧ (step .heartbeatTimeoutFires m).reconnectTimeout = none := by
  have h1 : step .heartbeatTimeoutFires m
      = connect (disconnect { m with heartbeatTimeout := false }) := by
    simp [step, hto]
  have h2 : disconnect { m with heartbeatTimeout := false }
      = { m with heartbeatTimeout := false, heartbeatInterval := false,
                 reconnectTimeout := none, ws := none,
                 pendingOnclose := m.pendingOnclose + 1 } := by
    simp [disconnect, stopHeartbeat, hws]
  rw [h1, h2]
  exact ⟨rfl, rfl, rfl, rfl⟩

/-! ### Claims about NEW_MESSAGE dispatch (chats slice) -/

theorem find?_updateFirst_pos (p : α → Bool) (f : α → α)
    (hpf : ∀ a, p a = true → p (f a) = true) :
    ∀ l : List α, (updateFirst p f l).find? p = (l.find? p).map f := by
  intro l
  induction l with
  | nil => rfl
  | cons x xs ih =>
      by_cases hx : p x
      · simp [updateFirst, hx, List.find?_cons_of_pos, hpf x hx]
      · simp only [updateFirst, hx, if_false, Bool.false_eq_true]
        rw [List.find?_cons_of_neg _ hx, List.find?_cons_of_neg _ hx, ih]

theorem find?_updateFirst_other (p q : α → Bool) (f : α → α)
    (hq : ∀ a, p a = true → q a = false ∧ q (f a) = false) :
    ∀ l : List α, (updateFirst p f l).find? q = l.find? q := by
  intro l
  induction l with
  | nil => rfl
  | cons x xs ih =>
      by_cases hx : p x
      · obtain ⟨hqx, hqfx⟩ := hq x hx
        simp only [updateFirst, hx, if_true]
        rw [List.find?_cons_of_neg _ (by simp [hqfx]),
            List.find?_cons_of_neg _ (by simp [hqx])]
      · simp only [updateFirst, hx, if_false, Bool.false_eq_true]
        by_cases hqx : q x
        · rw [List.find?_cons_of_pos _ hqx, List.find?_cons_of_pos _ hqx]
        · rw [List.find?_cons_of_neg _ hqx, List.find?_cons_of_neg _ hqx, ih]

theorem map_updateFirst (p : α → Bool) (f : α → α) (g : α → β)
    (hgf : ∀ a, p a = true → g (f a) = g a) :
    ∀ l : List α, (updateFirst p f l).map g = l.map g := by
  intro l
  induction l with
  | nil => rfl
  | cons x xs ih =>
      by_cases hx : p x
      · simp [updateFirst, hx, hgf x hx]
      · simp [updateFirst, hx, ih]

theorem mem_updateFirst_of_neg (p : α → Bool) (f : α → α) (a : α) (ha : p a = false) :
    ∀ l : List α, a ∈ l → a ∈ updateFirst p f l := by
  intro l
  induction l with
  | nil => exact fun h => h
  | cons x xs ih =>
      intro hmem
      rcases List.mem_cons.mp hmem with hmem | hmem
      · subst hmem
        simp [updateFirst, ha]
      · by_cases hx : p x
        · simp only [updateFirst, hx, if_true, List.mem_cons]
          exact Or.inr hmem
        · simp only [updateFirst, hx, if_false, Bool.false_eq_true, List.mem_cons]
          exact Or.inr (ih hmem)

/-- One `NEW_MESSAGE` dispatch changes the unread counter of chat `x` by
exactly one when the event targets `x`, and not at all otherwise —
independently of the selected (active) chat, which only the messages
slice consults. -/
theorem unreadCount_handleNewMessage (now : Nat) (d : NewMessageData)
    (st : ClientView) (x : String) :
    unreadCount (handleNewMessage now d st) x
      = if d.chatId = x then (unreadCount st x).map (· + 1) else unreadCount st x := by
  by_cases hdx : d.chatId = x
  · subst hdx
    simp only [if_pos rfl, unreadCount, handleNewMessage, incrementChatUnread]
    rw [find?_updateFirst_pos (fun c => c.id == d.chatId)
        (fun c => { c with unreadCount := c.unreadCount + 1, lastMessageAt := now })
        (fun a ha => ha) st.chats.items]
    cases st.chats.items.find? (fun c => c.id == d.chatId) <;> rfl
  · simp only [if_neg hdx, unreadCount, handleNewMessage, incrementChatUnread]
    rw [find?_updateFirst_other (fun c => c.id == d.chatId) (fun c => c.id == x)
        (fun c => { c with unreadCount := c.unreadCount + 1, lastMessageAt := now })
        (fun a ha => by
          constructor <;>
            · simp only [beq_iff_eq] at ha ⊢
              simp [ha, hdx])
        st.chats.items]

/-- C3: applying any sequence of `NEW_MESSAGE` events all targeting chat
`x` — at arbitrary clock readings, with arbitrary payloads, and whatever
chat is currently active — increases the unread counter of `x` by exactly
the number of events. -/
theorem newMessage_increments_unread_by_n (evs : List (Nat × NewMessageData))
    (st : ClientView) (x : String) (u : Nat)
    (hall : ∀ e ∈ evs, (e.2).chatId = x) (hu : unreadCount st x = some u) :
    unreadCount (applyNewMessages evs st) x = some (u + evs.length) := by
  induction evs generalizing st u with
  | nil => simpa using hu
  | cons e rest ih =>
      obtain ⟨now, d⟩ := e
      have hd : d.chatId = x := hall ⟨now, d⟩ (List.mem_cons_self _ _)
      have hstep : unreadCount (handleNewMessage now d st) x = some (u + 1) := by
        rw [unreadCount_handleNewMessage, if_pos hd, hu]
        rfl
      have hrest : ∀ e ∈ rest, (e : Nat × NewMessageData).2.chatId = x :=
        fun e he => hall e (List.mem_cons_of_mem _ he)
      have := ih (handleNewMessage now d st) (u + 1) hrest hstep
      rw [show applyNewMessages ((now, d) :: rest) st
            = applyNewMessages rest (handleNewMessage now d st) from rfl, this]
      congr 1
      simp [List.length_cons]
      omega

/-- A two-chat view: chat "a" first, chat "b" second, neither active. -/
def stSample : ClientView :=
  { chats :=
      { items := [⟨"a", "Chat A", 50, 2⟩, ⟨"b", "Chat B", 40, 0⟩]
        total := 2, hasMore := false, currentOffset := 0, loading := false, error := none }
    messages :=
      { items := [], selectedChatId := none, total := 0, hasMore := true
        currentOffset := 0, loading := false, error := none } }

/-- C3 witness: two events for the inactive chat "a" raise its counter
from 2 to 4. -/
theorem newMessage_increments_unread_by_n_witness :
    unreadCount
      (applyNewMessages
        [(100, ⟨"a", "m1", 100, "user_001", "hi"⟩),
         (200, ⟨"a", "m2", 200, "user_002", "yo"⟩)] stSample) "a" = some 4 := by
  have h := newMessage_increments_unread_by_n
      [(100, ⟨"a", "m1", 100, "user_001", "hi"⟩),
       (200, ⟨"a", "m2", 200, "user_002", "yo"⟩)]
      stSample "a" 2 (by decide) (by decide)
  simpa using h

/-- The NEW_MESSAGE payload used as C8 counterexample input. -/
def dSample : NewMessageData := ⟨"b", "m9", 100, "user_001", "hello"⟩

/-- C8 counterexample: a `NEW_MESSAGE` for chat "b" (second in the list)
gives it the greatest `lastMessageAt`, yet the list order is unchanged —
the first chat is still "a", not the target: the dispatch does not move
the target chat to the front. -/
theorem newMessage_leaves_chat_position :
    (handleNewMessage 100 dSample stSample).chats.items
      = [⟨"a", "Chat A", 50, 2⟩, ⟨"b", "Chat B", 100, 1⟩]
  ∧ ¬ ((handleNewMessage 100 dSample stSample).chats.items.head?.map (fun c => c.id)
        = some dSample.chatId) := by
  decide

/-- C8 amended: the dispatch increments the target chat's unread counter
and sets its `lastMessageAt` to the current clock — its key under the
ordering by `lastMessageAt` — but the in-memory list is not re-sorted:
the sequence of chat ids (hence every chat's position) is unchanged, and
every non-target chat is untouched. -/
theorem newMessage_updates_sort_key_in_place (now : Nat) (d : NewMessageData)
    (st : ClientView) :
    ((handleNewMessage now d st).chats.items.map (fun c => c.id)
        = st.chats.items.map (fun c => c.id))
  ∧ ((handleNewMessage now d st).chats.items.find? (fun c => c.id == d.chatId)
        = (st.chats.items.find? (fun c => c.id == d.chatId)).map
            (fun c => { c with unreadCount := c.unreadCount + 1, lastMessageAt := now }))
  ∧ (∀ c ∈ st.chats.items, c.id ≠ d.chatId →
        c ∈ (handleNewMessage now d st).chats.items) := by
  simp only [handleNewMessage, incrementChatUnread]
  refine ⟨?_, ?_, ?_⟩
  · exact map_updateFirst (fun c => c.id == d.chatId)
      (fun c => { c with unreadCount := c.unreadCount + 1, lastMessageAt := now })
      (fun c => c.id) (fun a _ => rfl) st.chats.items
  · exact find?_updateFirst_pos (fun c => c.id == d.chatId)
      (fun c => { c with unreadCount := c.unreadCount + 1, lastMessageAt := now })
      (fun a ha => ha) st.chats.items
  · intro c hc hne
    exact mem_updateFirst_of_neg _ _ c (by simp [hne]) st.chats.items hc

/-- C8 amended witness: the non-target chat "a" is untouched and still
present after an event for "b". -/
theorem newMessage_updates_sort_key_in_place_witness :
    (⟨"a", "Chat A", 50, 2⟩ : Chat)
      ∈ (handleNewMessage 100 dSample stSample).chats.items :=
  (newMessage_updates_sort_key_in_place 100 dSample stSample).2.2
    ⟨"a", "Chat A", 50, 2⟩ (by decide) (by decide)

/-- C7 witness: the connected manager after `connect(); onopen;` and one
heartbeat tick (PING sent, pong timeout pending) reconnects immediately
when the timeout fires. -/
theorem heartbeat_timeout_reconnects_immediately_witness :
    (step .heartbeatTimeoutFires (run [.callConnect, .wsOpen 0, .heartbeatTick] initMgr)).opens
      = (run [.callConnect, .wsOpen 0, .heartbeatTick] initMgr).opens + 1 :=
  (heartbeat_timeout_reconnects_immediately
    (run [.callConnect, .wsOpen 0, .heartbeatTick] initMgr)
    (by decide) (by decide) (by decide)).2.1

/-! ### Claims about the store (electron/db.js) -/

/-- A one-chat, no-message database. -/
def dbSample : Db := { chats := [⟨"c1", "Chat 1", 10, 0⟩], messages := [] }

/-- C6 counterexample: on a fresh insert into an existing chat, a failure
of the second statement (the chat UPDATE) leaves the message row inserted
while the chat row is not updated — an error is reported yet the store is
not unchanged: `insertMessage` is not atomic. -/
theorem insertMessage_partial_write_on_update_failure :
    ((insertMessage "c1" "m1" 20 "user_001" "hello" true true dbSample).error).isSome = true
  ∧ (insertMessage "c1" "m1" 20 "user_001" "hello" true true dbSample).db.messages
      = [⟨"m1", "c1", 20, "user_001", "hello"⟩]
  ∧ (insertMessage "c1" "m1" 20 "user_001" "hello" true true dbSample).db.chats
      = dbSample.chats := by
  decide

/-- C6 amended: `insertMessage` runs the message INSERT and the chat
UPDATE as two separate statements with no enclosing transaction.  If the
INSERT fails (duplicate message id, or foreign key to a missing chat) the
store is unchanged and an error is reported; if both statements succeed,
the message row is appended and the matching chat rows get
`lastMessageAt = ts` (and `unreadCount + 1` when `increment_unread`),
other chats untouched; but if the UPDATE fails after a successful INSERT,
the message row remains inserted with every chat row unchanged — the
operation is not atomic. -/
theorem insertMessage_sequential_effects (chatId messageId : String) (ts : Nat)
    (sender body : String) (incr uf : Bool) (db : Db) :
    ((db.messages.any (fun m => m.id == messageId) = true
        ∨ db.chats.any (fun c => c.id == chatId) = false) →
      (insertMessage chatId messageId ts sender body incr uf db).db = db
      ∧ ((insertMessage chatId messageId ts sender body incr uf db).error).isSome = true)
  ∧ (db.messages.any (fun m => m.id == messageId) = false →
     db.chats.any (fun c => c.id == chatId) = true →
      (insertMessage chatId messageId ts sender body incr uf db).db.messages
          = db.messages ++ [⟨messageId, chatId, ts, sender, body⟩]
      ∧ (uf = true →
          (insertMessage chatId messageId ts sender body incr uf db).db.chats = db.chats
          ∧ ((insertMessage chatId messageId ts sender body incr uf db).error).isSome = true)
      ∧ (uf = false →
          (insertMessage chatId messageId ts sender body incr uf db).error = none
          ∧ ∀ c ∈ db.chats,
              (c.id ≠ chatId →
                c ∈ (insertMessage chatId messageId ts sender body incr uf db).db.chats)
              ∧ (c.id = chatId →
                ({ c with lastMessageAt := ts, unreadCount := if incr then c.unreadCount + 1 else c.unreadCount } : DbChat)
                  ∈ (insertMessage chatId messageId ts sender body incr uf db).db.chats))) := by
  constructor
  · intro h
    rcases h with h | h
    · constructor <;> simp [insertMessage, h]
    · by_cases hm : db.messages.any (fun m => m.id == messageId) = true
      · constructor <;> simp [insertMessage, hm]
      · constructor <;> simp [insertMessage, hm, h]
  · intro hm hc
    refine ⟨?_, ?_, ?_⟩
    · cases uf <;> simp [insertMessage, hm, hc]
    · intro huf
      subst huf
      constructor <;> simp [insertMessage, hm, hc]
    · intro huf
      subst huf
      constructor
      · simp [insertMessage, hm, hc]
      · intro c hcmem
        constructor
        · intro hne
          have h1 := List.mem_map_of_mem (fun c : DbChat => if c.id = chatId then { c with lastMessageAt := ts, unreadCount := if incr then c.unreadCount + 1 else c.unreadCount } else c) hcmem
          simp only [if_neg hne] at h1
          simpa [insertMessage, hm, hc] using h1
        · intro heq
          have h1 := List.mem_map_of_mem (fun c : DbChat => if c.id = chatId then { c with lastMessageAt := ts, unreadCount := if incr then c.unreadCount + 1 else c.unreadCount } else c) hcmem
          simp only [if_pos heq] at h1
          simpa [insertMessage, hm, hc] using h1

/-- C6 amended witness: the happy path on `dbSample` really bumps the
chat row. -/
theorem insertMessage_sequential_effects_witness :
    ({ id := "c1", title := "Chat 1", lastMessageAt := 20, unreadCount := 1 } : DbChat)
      ∈ (insertMessage "c1" "m1" 20 "user_001" "hello" true false dbSample).db.chats := by
  have h := (insertMessage_sequential_effects "c1" "m1" 20 "user_001" "hello"
      true false dbSample).2 (by decide) (by decide)
  have h2 := ((h.2.2 rfl).2 ⟨"c1", "Chat 1", 10, 0⟩ (by decide)).2 rfl
  simpa using h2

/-- C9: over an unchanged 120-row table with distinct primary keys, the
three adjacent windows `(0,50)`, `(50,50)`, `(100,50)` return 50, 50 and
20 rows; their concatenation is exactly the full sorted table (stable
order), they are pairwise disjoint, `total` is the table size and
`hasMore` is true, true, false. -/
theorem getChats_adjacent_windows_partition (db : Db)
    (h120 : db.chats.length = 120)
    (hids : (db.chats.map (fun c => c.id)).Nodup) :
    (getChats 0 50 db).chats.length = 50
  ∧ (getChats 50 50 db).chats.length = 50
  ∧ (getChats 100 50 db).chats.length = 20
  ∧ (getChats 0 50 db).chats ++ (getChats 50 50 db).chats ++ (getChats 100 50 db).chats
      = sortChats db.chats
  ∧ (getChats 0 50 db).total = 120
  ∧ (getChats 0 50 db).hasMore = true
  ∧ (getChats 50 50 db).hasMore = true
  ∧ (getChats 100 50 db).hasMore = false
  ∧ List.Disjoint (getChats 0 50 db).chats (getChats 50 50 db).chats
  ∧ List.Disjoint (getChats 0 50 db).chats (getChats 100 50 db).chats
  ∧ List.Disjoint (getChats 50 50 db).chats (getChats 100 50 db).chats := by
  have hperm : List.Perm (sortChats db.chats) db.chats :=
    List.perm_insertionSort chatLe db.chats
  have hlen : (sortChats db.chats).length = 120 := by rw [hperm.length_eq, h120]
  have e1 : (getChats 0 50 db).chats = (sortChats db.chats).take 50 := by
    simp [getChats, sortChats]
  have e2 : (getChats 50 50 db).chats = ((sortChats db.chats).drop 50).take 50 := rfl
  have hd100 : ((sortChats db.chats).drop 100).length = 20 := by
    rw [List.length_drop, hlen]
  have e3 : (getChats 100 50 db).chats = (sortChats db.chats).drop 100 := by
    have : (getChats 100 50 db).chats = ((sortChats db.chats).drop 100).take 50 := rfl
    rw [this, List.take_of_length_le (by rw [hd100]; norm_num)]
  have l1 : ((sortChats db.chats).take 50).length = 50 := by
    rw [List.length_take, hlen]
    decide
  have l2 : (((sortChats db.chats).drop 50).take 50).length = 50 := by
    rw [List.length_take, List.length_drop, hlen]
    decide
  have hcat : (sortChats db.chats).take 50
      ++ (((sortChats db.chats).drop 50).take 50 ++ (sortChats db.chats).drop 100)
      = sortChats db.chats := by
    have d1 : (sortChats db.chats).drop 100 = ((sortChats db.chats).drop 50).drop 50 := by
      rw [List.drop_drop]
    rw [d1, List.take_append_drop, List.take_append_drop]
  have hnodup : (sortChats db.chats).Nodup :=
    (hperm.symm).nodup (List.Nodup.of_map (fun c => c.id) hids)
  have hnodupcat : ((sortChats db.chats).take 50
      ++ (((sortChats db.chats).drop 50).take 50 ++ (sortChats db.chats).drop 100)).Nodup := by
    rw [hcat]
    exact hnodup
  obtain ⟨n1, n23, d123⟩ := List.nodup_append.mp hnodupcat
  obtain ⟨n2, n3, d23⟩ := List.nodup_append.mp n23
  obtain ⟨d12, d13⟩ := List.disjoint_append_right.mp d123
  refine ⟨?_, ?_, ?_, ?_, ?_, ?_, ?_, ?_, ?_, ?_, ?_⟩
  · rw [e1, l1]
  · rw [e2, l2]
  · rw [e3, hd100]
  · rw [e1, e2, e3, List.append_assoc, hcat]
  · simp [getChats, h120]
  · simp only [getChats, h120]
    rfl
  · simp only [getChats, h120]
    rfl
  · simp only [getChats, h120]
    rfl
  · rw [e1, e2]
    exact d12
  · rw [e1, e3]
    exact d13
  · rw [e2, e3]
    exact d23

/-- A 120-row table with distinct ids, already in descending
`lastMessageAt` order. -/
def db120 : Db :=
  { chats := (List.range 120).map (fun i => ⟨toString i, "Chat", 1000 - i, 0⟩)
    messages := [] }

/-- C9 witness: the third window of the 120-row table has exactly the 20
remaining rows. -/
theorem getChats_adjacent_windows_partition_witness :
    (getChats 100 50 db120).chats.length = 20 :=
  (getChats_adjacent_windows_partition db120 (by rfl) (by decide)).2.2.1

/-- C10: `markChatAsRead` zeroes exactly the target chat's counter:
the messages table is untouched; every chat keeps its position, its id,
its title and its `lastMessageAt`; `unreadCount` becomes 0 on rows whose
id matches and is unchanged on every other row. -/
theorem markChatAsRead_zeroes_only_target (chatId : String) (db : Db) :
    (markChatAsRead chatId db).messages = db.messages
  ∧ (markChatAsRead chatId db).chats.length = db.chats.length
  ∧ (∀ i : Nat,
      ((markChatAsRead chatId db).chats[i]?).map
          (fun c => (c.id, c.title, c.lastMessageAt))
        = (db.chats[i]?).map (fun c => (c.id, c.title, c.lastMessageAt)))
  ∧ (∀ i : Nat,
      ((markChatAsRead chatId db).chats[i]?).map (fun c => c.unreadCount)
        = (db.chats[i]?).map (fun c => if c.id = chatId then 0 else c.unreadCount)) := by
  refine ⟨rfl, by simp [markChatAsRead], ?_, ?_⟩
  · intro i
    simp only [markChatAsRead, List.getElem?_map, Option.map_map]
    cases db.chats[i]? with
    | none => rfl
    | some c =>
        by_cases hc : c.id = chatId <;> simp [hc, Function.comp]
  · intro i
    simp only [markChatAsRead, List.getElem?_map, Option.map_map]
    cases db.chats[i]? with
    | none => rfl
    | some c =>
        by_cases hc : c.id = chatId <;> simp [hc, Function.comp]

end SecureMessenger
